import Mathlib

/-!
Verification of the boomroach hydra-bot signal pipeline.

The definitions below are a shallow embedding of the Python sources:
  src/hydra-bot/ai_signal_engine/main.py        (AISignalEngine)
  src/hydra_bot/backend/services/trading_service.py  (execute_trade)
Floats are modelled as rationals, JSON-decoded values as the inductive
type JVal, and each external call (HTTP, OpenAI, database, Redis) as an
explicit outcome parameter.  Exceptions are modelled with Option/Except;
a Python try/except block that swallows the error becomes a total
function.
-/

namespace Boomroach

/-- A value produced by json.loads: null, booleans, numbers, strings,
arrays and objects (objects keep field order like a Python dict). -/
inductive JVal where
  | null
  | bool (b : Bool)
  | num (q : ℚ)
  | str (s : String)
  | arr (elems : List JVal)
  | obj (fields : List (String × JVal))

/-- Python dict lookup d[k] / d.get(k) on an object value.  The modelled
payloads have no duplicate keys, so first-match lookup is faithful. -/
def JVal.get? : JVal → String → Option JVal
  | .obj fields, k => fields.lookup k
  | _, _ => none

/-- Python d.get(k, default) on a value that may not be a dict: calling
.get on a non-dict raises AttributeError, modelled as none. -/
def JVal.pyGetD : JVal → String → JVal → Option JVal
  | .obj fields, k, d => some ((fields.lookup k).getD d)
  | _, _, _ => none

/-- Python float() applied to a JSON-decoded value: numbers pass
through, booleans coerce (bool is an int subtype in Python), anything
else raises, modelled as none.  Numeric strings, which Python float()
would also accept, do not occur in the modelled payloads and are mapped
to failure as well. -/
def pyFloat : JVal → Option ℚ
  | .num q => some q
  | .bool b => some (if b then 1 else 0)
  | _ => none

/-- The SignalAction enum from models.signal, whose members are the
seven recommendation strings listed in the GPT prompt. -/
inductive SignalAction where
  | STRONG_BUY | BUY | WEAK_BUY | HOLD | WEAK_SELL | SELL | STRONG_SELL
deriving DecidableEq

/-- The string value of a SignalAction member (its .value). -/
def SignalAction.value : SignalAction → String
  | .STRONG_BUY => "STRONG_BUY"
  | .BUY => "BUY"
  | .WEAK_BUY => "WEAK_BUY"
  | .HOLD => "HOLD"
  | .WEAK_SELL => "WEAK_SELL"
  | .SELL => "SELL"
  | .STRONG_SELL => "STRONG_SELL"

/-- The Python constructor call SignalAction(value): succeeds exactly on
the seven known enum strings, raises ValueError (none) on anything
else, including non-string values. -/
def toSignalAction : JVal → Option SignalAction
  | .str "STRONG_BUY" => some .STRONG_BUY
  | .str "BUY" => some .BUY
  | .str "WEAK_BUY" => some .WEAK_BUY
  | .str "HOLD" => some .HOLD
  | .str "WEAK_SELL" => some .WEAK_SELL
  | .str "SELL" => some .SELL
  | .str "STRONG_SELL" => some .STRONG_SELL
  | _ => none

/-- The SignalType enum (signal direction). -/
inductive SignalType where
  | BUY | SELL
deriving DecidableEq

/-- The string value of a SignalType member. -/
def SignalType.value : SignalType → String
  | .BUY => "BUY"
  | .SELL => "SELL"

/-- Outcome of the OpenAI chat-completions call followed by json.loads
on the response content, as seen from inside the try block of
get_ai_analysis: the call can raise (timeout, rate limit, network), the
body can fail to parse, or a JSON value is obtained. -/
inductive ModelCallOutcome where
  | failure
  | unparseable
  | parsed (body : JVal)

/-- The dictionary returned by get_ai_analysis (both branches build
exactly these eight keys). -/
structure AIAnalysis where
  recommendation : JVal
  confidence : ℚ
  reasoning : JVal
  target_price : Option JVal
  stop_loss : Option JVal
  time_horizon : JVal
  risk_score : ℚ
  key_factors : JVal

/-- The dictionary built in the except branch of get_ai_analysis.  The
Python reasoning string interpolates the exception message; the message
text is elided here since nothing downstream inspects it. -/
def safeDefaultAnalysis : AIAnalysis :=
  { recommendation := .str "HOLD"
    confidence := 0
    reasoning := .str "AI analysis failed"
    target_price := none
    stop_loss := none
    time_horizon := .str "unknown"
    risk_score := 1
    key_factors := .arr [] }

/-- AISignalEngine.get_ai_analysis, main.py lines 245-287.  The whole
body sits in one try/except: a call failure, an unparseable body, a
non-dict body (whose .get raises AttributeError) or a float() failure
on confidence or risk_score all land in the except branch, which
returns the safe default; otherwise each field is read with .get and
its literal default from the source. -/
def get_ai_analysis (outcome : ModelCallOutcome) : AIAnalysis :=
  match outcome with
  | .failure => safeDefaultAnalysis
  | .unparseable => safeDefaultAnalysis
  | .parsed body =>
    match body.pyGetD "confidence" (.num (1/2)),
          body.pyGetD "risk_score" (.num (1/2)) with
    | some confVal, some riskVal =>
      match pyFloat confVal, pyFloat riskVal with
      | some conf, some risk =>
        { recommendation := (body.get? "recommendation").getD (.str "HOLD")
          confidence := conf
          reasoning := (body.get? "reasoning").getD (.str "No reasoning provided")
          target_price := body.get? "target_price"
          stop_loss := body.get? "stop_loss"
          time_horizon := (body.get? "time_horizon").getD (.str "medium")
          risk_score := risk
          key_factors := (body.get? "key_factors").getD (.arr []) }
      | _, _ => safeDefaultAnalysis
    | _, _ => safeDefaultAnalysis

/-- The support_resistance dict from the technical analyzer. -/
structure SupportResistance where
  support : ℚ
  resistance : ℚ
deriving DecidableEq

/-- The TokenAnalysis dataclass, main.py lines 40-74.  market_cap and
volume_24h carry the raw values of price_data.get(..., 0), which on the
Jupiter-only path can be JSON null despite the float annotation, so
they are kept as JVal. -/
structure TokenAnalysis where
  token_mint : String
  symbol : String
  price : ℚ
  market_cap : JVal
  volume_24h : JVal
  rsi : ℚ
  macd_signal : String
  bollinger_position : ℚ
  volume_profile : String
  support_resistance : SupportResistance
  social_sentiment : ℚ
  news_sentiment : ℚ
  community_activity : ℤ
  influencer_mentions : ℤ
  ai_recommendation : SignalAction
  ai_confidence : ℚ
  ai_reasoning : JVal
  target_price : Option JVal
  stop_loss : Option JVal
  time_horizon : JVal
  risk_score : ℚ
  liquidity_risk : ℚ
  volatility_risk : ℚ
  smart_money_activity : ℚ

/-- The Signal object constructed in generate_signal, main.py lines
308-343.  The engine field is the constant SignalEngine.AI_ANALYSIS;
reasoning and metadata are the two nested dicts, embedded as JVal. -/
structure Signal where
  token_mint : String
  engine : String
  type : SignalType
  action : SignalAction
  confidence : ℚ
  price : ℚ
  target_price : Option JVal
  stop_loss : Option JVal
  timeframe : JVal
  reasoning : JVal
  metadata : JVal

/-- The reasoning dict built in generate_signal. -/
def mkReasoning (a : TokenAnalysis) : JVal :=
  .obj [("ai_reasoning", a.ai_reasoning),
        ("technical_factors", .obj [("rsi", .num a.rsi),
                                    ("macd_signal", .str a.macd_signal),
                                    ("bollinger_position", .num a.bollinger_position)]),
        ("sentiment_factors", .obj [("social_sentiment", .num a.social_sentiment),
                                    ("news_sentiment", .num a.news_sentiment),
                                    ("community_activity", .num a.community_activity)]),
        ("risk_factors", .obj [("overall_risk", .num a.risk_score),
                               ("liquidity_risk", .num a.liquidity_risk),
                               ("volatility_risk", .num a.volatility_risk)])]

/-- The metadata dict built in generate_signal. -/
def mkMetadata (a : TokenAnalysis) : JVal :=
  .obj [("market_cap", a.market_cap),
        ("volume_24h", a.volume_24h),
        ("smart_money_activity", .num a.smart_money_activity),
        ("support_level", .num a.support_resistance.support),
        ("resistance_level", .num a.support_resistance.resistance)]

/-- AISignalEngine.generate_signal, main.py lines 289-348.  Returns
None when ai_confidence is below settings.MIN_SIGNAL_CONFIDENCE (a
configuration value, taken as a parameter here) or when risk_score
exceeds the literal 0.8; otherwise builds the Signal, mapping the three
buy recommendations to SignalType.BUY and everything else to SELL. -/
def generate_signal (minConfidence : ℚ) (a : TokenAnalysis) : Option Signal :=
  if a.ai_confidence < minConfidence then none
  else if a.risk_score > 4/5 then none
  else
    let signalType : SignalType :=
      if a.ai_recommendation = .STRONG_BUY ∨ a.ai_recommendation = .BUY ∨
         a.ai_recommendation = .WEAK_BUY then .BUY else .SELL
    some { token_mint := a.token_mint
           engine := "AI_ANALYSIS"
           type := signalType
           action := a.ai_recommendation
           confidence := a.ai_confidence
           price := a.price
           target_price := a.target_price
           stop_loss := a.stop_loss
           timeframe := a.time_horizon
           reasoning := mkReasoning a
           metadata := mkMetadata a }

/-- The technical_data dict returned by TechnicalAnalyzer.analyze, with
exactly the keys read in analyze_token and get_ai_analysis. -/
structure TechData where
  rsi : ℚ
  macd_signal : String
  bollinger_position : ℚ
  volume_profile : String
  support_resistance : SupportResistance
  liquidity_risk : ℚ
  volatility_risk : ℚ

/-- The social_data dict returned by SocialMonitorService.get_sentiment,
with exactly the keys read in analyze_token and get_ai_analysis. -/
structure SocialData where
  sentiment_score : ℚ
  news_sentiment : ℚ
  activity_score : ℤ
  influencer_mentions : ℤ
  smart_money_activity : ℚ

/-- AISignalEngine.analyze_token, main.py lines 140-192.  The
collaborator calls are awaited sequentially with no try/except around
them: a failure of the technical analyzer or of the sentiment monitor
propagates to the caller as-is (modelled by the Except bind).  The AI
call is handled inside get_ai_analysis and never fails; the final
SignalAction(...) constructor raises ValueError when the
recommendation value is not a known enum string. -/
def analyze_token (mint symbol : String) (priceData : JVal)
    (techResult : Except String TechData)
    (socialResult : Except String SocialData)
    (aiOutcome : ModelCallOutcome) : Except String TokenAnalysis := do
  let tech ← techResult
  let social ← socialResult
  let ai := get_ai_analysis aiOutcome
  let price ←
    match priceData.get? "price" with
    | none => .error "KeyError: price"
    | some v =>
      match pyFloat v with
      | none => .error "TypeError: price"
      | some p => .ok p
  let act ←
    match toSignalAction ai.recommendation with
    | none => .error "ValueError: not a valid SignalAction"
    | some act => .ok act
  .ok { token_mint := mint
        symbol := symbol
        price := price
        market_cap := (priceData.pyGetD "market_cap" (.num 0)).getD (.num 0)
        volume_24h := (priceData.pyGetD "volume_24h" (.num 0)).getD (.num 0)
        rsi := tech.rsi
        macd_signal := tech.macd_signal
        bollinger_position := tech.bollinger_position
        volume_profile := tech.volume_profile
        support_resistance := tech.support_resistance
        social_sentiment := social.sentiment_score
        news_sentiment := social.news_sentiment
        community_activity := social.activity_score
        influencer_mentions := social.influencer_mentions
        ai_recommendation := act
        ai_confidence := ai.confidence
        ai_reasoning := ai.reasoning
        target_price := ai.target_price
        stop_loss := ai.stop_loss
        time_horizon := ai.time_horizon
        risk_score := ai.risk_score
        liquidity_risk := tech.liquidity_risk
        volatility_risk := tech.volatility_risk
        smart_money_activity := social.smart_money_activity }

/-- The row dict written by save_signal (status is the literal ACTIVE;
created_at is datetime.utcnow(), taken as a parameter). -/
structure SignalRecord where
  token_mint : String
  engine : String
  type : String
  action : String
  confidence : ℚ
  price : ℚ
  target_price : Option JVal
  stop_loss : Option JVal
  timeframe : JVal
  reasoning : JVal
  metadata : JVal
  status : String
  created_at : ℚ

/-- Observable state of the persistence and broadcast collaborators:
the signals table, the payloads whose publication was attempted, and
the payloads actually delivered to the Redis channel. -/
structure EngineState where
  saved : List SignalRecord
  publishAttempted : List (String × JVal)
  published : List (String × JVal)

/-- AISignalEngine.save_signal, main.py lines 453-483.  The insert can
fail (dbOutcome); the except branch only logs, so the function always
returns normally, appending a row exactly when the insert succeeded. -/
def save_signal (st : EngineState) (s : Signal) (now : ℚ)
    (dbOutcome : Except String Unit) : EngineState :=
  match dbOutcome with
  | .ok _ =>
    { st with saved := st.saved ++
        [{ token_mint := s.token_mint
           engine := s.engine
           type := s.type.value
           action := s.action.value
           confidence := s.confidence
           price := s.price
           target_price := s.target_price
           stop_loss := s.stop_loss
           timeframe := s.timeframe
           reasoning := s.reasoning
           metadata := s.metadata
           status := "ACTIVE"
           created_at := now }] }
  | .error _ => st

/-- The signal_data payload built in broadcast_signal (timestamp is
datetime.utcnow().isoformat(), taken as a parameter string). -/
def mkBroadcastPayload (s : Signal) (ts : String) : JVal :=
  .obj [("token_mint", .str s.token_mint),
        ("type", .str s.type.value),
        ("action", .str s.action.value),
        ("confidence", .num s.confidence),
        ("price", .num s.price),
        ("target_price", (s.target_price).getD .null),
        ("stop_loss", (s.stop_loss).getD .null),
        ("reasoning", s.reasoning),
        ("timestamp", .str ts)]

/-- AISignalEngine.broadcast_signal, main.py lines 485-509.  The
publish to the trading_signals channel can fail (pubOutcome); the
except branch only logs, so the attempt is always recorded and the
delivery happens exactly when the publish succeeded. -/
def broadcast_signal (st : EngineState) (s : Signal) (ts : String)
    (pubOutcome : Except String Unit) : EngineState :=
  let payload := ("trading_signals", mkBroadcastPayload s ts)
  match pubOutcome with
  | .ok _ => { st with publishAttempted := st.publishAttempted ++ [payload],
                       published := st.published ++ [payload] }
  | .error _ => { st with publishAttempted := st.publishAttempted ++ [payload] }

/-- The per-token body of the start_signal_generation loop, main.py
lines 121-131: analyze, generate, and if a signal was produced, save it
and then broadcast it.  Any exception from analyze_token is caught by
the per-token except clause, which logs and moves on. -/
def processToken (minConfidence : ℚ) (st : EngineState)
    (analysisResult : Except String TokenAnalysis)
    (now : ℚ) (ts : String)
    (dbOutcome pubOutcome : Except String Unit) : EngineState :=
  match analysisResult with
  | .error _ => st
  | .ok a =>
    match generate_signal minConfidence a with
    | none => st
    | some s => broadcast_signal (save_signal st s now dbOutcome) s ts pubOutcome

/-- Outcome of one HTTP GET as seen from inside a try block: the call
can raise (network error, timeout) or deliver a status code and a
JSON-decoded body. -/
inductive HttpOutcome where
  | netError
  | resp (status : ℕ) (body : JVal)

/-- One Redis cache entry: the stored JSON value and its absolute
expiry time (setex with a 30 second TTL at time t expires at t+30). -/
structure CacheEntry where
  value : JVal
  expiresAt : ℚ

/-- The Redis key space used for price data; newest entry first, so
lookup finds the most recent write for a key. -/
abbrev Cache := List (String × CacheEntry)

/-- Redis GET at time now: the stored value while it has not expired,
nothing afterwards. -/
def cacheGet (c : Cache) (k : String) (now : ℚ) : Option JVal :=
  match c.lookup k with
  | some e => if now < e.expiresAt then some e.value else none
  | none => none

/-- Redis SETEX with a ttl in seconds at time now. -/
def cacheSetex (c : Cache) (k : String) (ttl : ℚ) (v : JVal) (now : ℚ) : Cache :=
  (k, { value := v, expiresAt := now + ttl }) :: c

/-- The price_data dict built on the Jupiter 200 path: price from
Jupiter, the other three fields None until DexScreener enrichment
replaces them. -/
def mkPriceData (price : ℚ) (marketCap volume24h change24h : Option ℚ) : JVal :=
  .obj [("price", .num price),
        ("market_cap", (marketCap.map JVal.num).getD .null),
        ("volume_24h", (volume24h.map JVal.num).getD .null),
        ("change_24h", (change24h.map JVal.num).getD .null)]

/-- The dict returned by both fallback paths of get_price_data (the
non-200 fall-through and the except branch): all four fields zero, and
no other field — in particular no is_fallback marker. -/
def fallbackPriceData : JVal :=
  .obj [("price", .num 0),
        ("market_cap", .num 0),
        ("volume_24h", .num 0),
        ("change_24h", .num 0)]

/-- The DexScreener enrichment step, main.py lines 412-427: its own
try/except-pass, so any failure (network, non-200, non-dict body,
missing or non-list pairs, non-dict first pair, unfloatable values)
leaves the Jupiter-only dict intact.  The update dict literal is
evaluated before dict.update runs, so the three fields are replaced
all-or-nothing. -/
def dexEnrich (price : ℚ) (dex : HttpOutcome) : JVal :=
  match dex with
  | .netError => mkPriceData price none none none
  | .resp status body =>
    if status = 200 then
      match body.pyGetD "pairs" .null with
      | some (.arr (pair :: _)) =>
        match pair.pyGetD "fdv" (.num 0), pair.pyGetD "volume" (.obj []),
              pair.pyGetD "priceChange" (.obj []) with
        | some fdv, some vol, some chg =>
          match pyFloat fdv,
                pyFloat ((vol.pyGetD "h24" (.num 0)).getD (.num 0)),
                pyFloat ((chg.pyGetD "h24" (.num 0)).getD (.num 0)) with
          | some mc, some v24, some c24 => mkPriceData price (some mc) (some v24) (some c24)
          | _, _, _ => mkPriceData price none none none
        | _, _, _ => mkPriceData price none none none
      | _ => mkPriceData price none none none
    else mkPriceData price none none none

/-- Result of one get_price_data call: the returned dict, the cache
afterwards, and which external HTTP calls were issued. -/
structure FetchResult where
  data : JVal
  cache : Cache
  jupiterCalled : Bool
  dexCalled : Bool

/-- AISignalEngine.get_price_data, main.py lines 383-451.  Cache-first:
a fresh cache entry is returned with no HTTP call.  On a miss the
Jupiter call is made; on status 200 the price is extracted (any raise
during extraction lands in the outer except, before the DexScreener
call), DexScreener enrichment is attempted, the dict is cached with
setex ttl 30 and returned.  A non-200 Jupiter status falls through to
the zero-valued fallback dict, and any raise (including the Jupiter
network call itself) hits the except branch returning the same
fallback dict; neither fallback path writes the cache. -/
def get_price_data (mint : String) (c : Cache) (now : ℚ)
    (jup dex : HttpOutcome) : FetchResult :=
  let key := "price_data:" ++ mint
  match cacheGet c key now with
  | some v => { data := v, cache := c, jupiterCalled := false, dexCalled := false }
  | none =>
    match jup with
    | .netError =>
      { data := fallbackPriceData, cache := c, jupiterCalled := true, dexCalled := false }
    | .resp status body =>
      if status = 200 then
        match body.pyGetD "data" (.obj []) with
        | none =>
          { data := fallbackPriceData, cache := c, jupiterCalled := true, dexCalled := false }
        | some dataField =>
          match dataField.pyGetD mint (.obj []) with
          | none =>
            { data := fallbackPriceData, cache := c, jupiterCalled := true, dexCalled := false }
          | some priceInfo =>
            match priceInfo.pyGetD "price" (.num 0) with
            | none =>
              { data := fallbackPriceData, cache := c, jupiterCalled := true, dexCalled := false }
            | some priceVal =>
              match pyFloat priceVal with
              | none =>
                { data := fallbackPriceData, cache := c, jupiterCalled := true, dexCalled := false }
              | some price =>
                let pd := dexEnrich price dex
                { data := pd
                  cache := cacheSetex c key 30 pd now
                  jupiterCalled := true
                  dexCalled := true }
      else
        { data := fallbackPriceData, cache := c, jupiterCalled := true, dexCalled := false }

/-- One row of the candidate universe: the asset id plus the symbol
field, enough to distinguish the two sources of the same mint (the
remaining columns play no part in deduplication). -/
structure Token where
  mint : String
  symbol : String
deriving DecidableEq

/-- One step of the Python dict comprehension over tokens keyed by
mint: an existing key keeps its position but its value is overwritten,
a new key is appended. -/
def dictInsert (acc : List Token) (t : Token) : List Token :=
  if acc.any (fun u => u.mint = t.mint) then
    acc.map (fun u => if u.mint = t.mint then t else u)
  else acc ++ [t]

/-- The dict comprehension unique_tokens, main.py line 375: insertion
order of first occurrences, value of the last occurrence per mint. -/
def dedupByMint (l : List Token) : List Token := l.foldl dictInsert []

/-- AISignalEngine.get_tokens_to_analyze, main.py lines 350-381.  The
database query and the trending feed both run inside one try: a failure
of either yields the empty list from the except branch.  On success the
two lists are concatenated (database rows first), deduplicated by mint
with the dict comprehension, and capped at 25. -/
def get_tokens_to_analyze (dbResult trendingResult : Except String (List Token)) :
    List Token :=
  match dbResult, trendingResult with
  | .ok dbTokens, .ok trending => (dedupByMint (dbTokens ++ trending)).take 25
  | _, _ => []

/-- Outcome of the externals inside the try block of execute_trade
(wallet load, route, PublicKey construction, transaction build, RPC
send): either everything before the send raised, or the send was
reached and returned response.get("result"), or the send itself
raised. -/
inductive ExecOutcome where
  | preSendRaise (msg : String)
  | sendOk (txHash : JVal)
  | sendRaise (msg : String)

/-- The dict returned by execute_trade (timestamp elided; nothing
downstream inspects it). -/
structure TradeResult where
  status : String
  token : Option String
  amount : Option ℚ
  tx_hash : Option JVal
  error : Option String

/-- execute_trade, trading_service.py lines 17-41.  One try/except
around the whole body: a success dict when the RPC send returns, an
error dict when anything raises.  The function consults no shared
state — there is no in-flight marker, no per-candidate lock, and no
AlreadyInFlight outcome anywhere in its code. -/
def execute_trade (token : String) (amount : ℚ) (outcome : ExecOutcome) : TradeResult :=
  match outcome with
  | .preSendRaise msg =>
    { status := "error", token := none, amount := none, tx_hash := none, error := some msg }
  | .sendOk tx =>
    { status := "success", token := some token, amount := some amount,
      tx_hash := some tx, error := none }
  | .sendRaise msg =>
    { status := "error", token := none, amount := none, tx_hash := none, error := some msg }

/-- The chain-side effect log: one entry per transaction actually
submitted by client.send_transaction.  The send is reached (and the
transaction dispatched) in every outcome except a raise before the
send. -/
def dispatchLog (token : String) (amount : ℚ) (outcome : ExecOutcome) :
    List (String × ℚ) :=
  match outcome with
  | .preSendRaise _ => []
  | .sendOk _ => [(token, amount)]
  | .sendRaise _ => [(token, amount)]

/-- Two overlapping execute_trade calls for the same candidate: since
execute_trade reads and writes no shared state, the interleaving is a
plain pairing, and the dispatched transactions accumulate. -/
def runTwoExecutions (token : String) (amount : ℚ) (o₁ o₂ : ExecOutcome) :
    (TradeResult × TradeResult) × List (String × ℚ) :=
  ((execute_trade token amount o₁, execute_trade token amount o₂),
   dispatchLog token amount o₁ ++ dispatchLog token amount o₂)

/-- A concrete technical_data value used to instantiate theorems. -/
def sampleTech : TechData :=
  { rsi := 55
    macd_signal := "bullish"
    bollinger_position := 1/2
    volume_profile := "increasing"
    support_resistance := { support := 1, resistance := 2 }
    liquidity_risk := 1/10
    volatility_risk := 1/5 }

/-- A concrete social_data value used to instantiate theorems. -/
def sampleSocial : SocialData :=
  { sentiment_score := 7/10
    news_sentiment := 3/5
    activity_score := 120
    influencer_mentions := 4
    smart_money_activity := 1/2 }

/-- A concrete TokenAnalysis used to instantiate theorems. -/
def sampleAnalysis : TokenAnalysis :=
  { token_mint := "MINT1"
    symbol := "TKN"
    price := 2
    market_cap := .num 1000000
    volume_24h := .num 50000
    rsi := 55
    macd_signal := "bullish"
    bollinger_position := 1/2
    volume_profile := "increasing"
    support_resistance := { support := 1, resistance := 2 }
    social_sentiment := 7/10
    news_sentiment := 3/5
    community_activity := 120
    influencer_mentions := 4
    ai_recommendation := .BUY
    ai_confidence := 9/10
    ai_reasoning := .str "looks strong"
    target_price := some (.num 3)
    stop_loss := some (.num 1)
    time_horizon := .str "short"
    risk_score := 1/5
    liquidity_risk := 1/10
    volatility_risk := 1/5
    smart_money_activity := 1/2 }

/-- sampleAnalysis with confidence below a 0.6 threshold. -/
def lowConfidenceAnalysis : TokenAnalysis :=
  { sampleAnalysis with ai_confidence := 1/10 }

/-- sampleAnalysis with a HOLD recommendation that passes both
thresholds. -/
def holdAnalysis : TokenAnalysis :=
  { sampleAnalysis with ai_recommendation := .HOLD }

/-- An empty engine state. -/
def emptyState : EngineState :=
  { saved := [], publishAttempted := [], published := [] }

/-- A parsed model response whose recommendation, confidence and
risk_score are the given values (the remaining fields well-formed). -/
def mkAiBody (rec : String) (conf risk : ℚ) : JVal :=
  .obj [("recommendation", .str rec),
        ("confidence", .num conf),
        ("reasoning", .str "because"),
        ("time_horizon", .str "short"),
        ("risk_score", .num risk),
        ("key_factors", .arr [])]

/-- A Jupiter price response body carrying the given price for the
given mint. -/
def jupBody (mint : String) (p : ℚ) : JVal :=
  .obj [("data", .obj [(mint, .obj [("price", .num p)])])]

/-- C1: generate_signal returns a signal exactly when ai_confidence is
at least MIN_SIGNAL_CONFIDENCE and risk_score is at most 0.8, and when
it returns None the loop body persists nothing and broadcasts
nothing. -/
theorem generate_signal_threshold_gate (minConfidence : ℚ) (a : TokenAnalysis)
    (st : EngineState) (now : ℚ) (ts : String) (db pub : Except String Unit) :
    ((generate_signal minConfidence a).isSome ↔
      (minConfidence ≤ a.ai_confidence ∧ a.risk_score ≤ 4/5)) ∧
    (generate_signal minConfidence a = none →
      processToken minConfidence st (.ok a) now ts db pub = st) := by
  constructor
  · unfold generate_signal
    by_cases h1 : a.ai_confidence < minConfidence
    · simp [h1, not_le.mpr h1]
    · by_cases h2 : a.risk_score > 4/5
      · simp [h1, h2, not_le.mpr h2]
      · simp [h1, h2, not_lt.mp h1, not_lt.mp h2]
  · intro h
    simp [processToken, h]

/-- Witness for C1 at a concrete rejected analysis. -/
theorem generate_signal_threshold_gate_witness :
    processToken (3/5) emptyState (.ok lowConfidenceAnalysis) 0 "t0" (.ok ()) (.ok ()) =
      emptyState := by
  have hnone : generate_signal (3/5) lowConfidenceAnalysis = none := by
    unfold generate_signal
    have hlt : lowConfidenceAnalysis.ai_confidence < 3/5 := by
      norm_num [lowConfidenceAnalysis, sampleAnalysis]
    rw [if_pos hlt]
  exact (generate_signal_threshold_gate (3/5) lowConfidenceAnalysis emptyState 0 "t0"
    (.ok ()) (.ok ())).2 hnone

/-- C2: execute_trade has no single-flight guard.  Two overlapping
calls for the same candidate both dispatch a transaction and both
return the success dict; no outcome of execute_trade is an
AlreadyInFlight condition — every result has status success or
error. -/
theorem execute_trade_missing_single_flight :
    (runTwoExecutions "TKN" 1 (.sendOk (.str "tx1")) (.sendOk (.str "tx2"))).2 =
      [("TKN", 1), ("TKN", 1)] ∧
    ((runTwoExecutions "TKN" 1 (.sendOk (.str "tx1")) (.sendOk (.str "tx2"))).1.1).status =
      "success" ∧
    ((runTwoExecutions "TKN" 1 (.sendOk (.str "tx1")) (.sendOk (.str "tx2"))).1.2).status =
      "success" ∧
    ∀ (token : String) (amount : ℚ) (o : ExecOutcome),
      (execute_trade token amount o).status = "success" ∨
      (execute_trade token amount o).status = "error" := by
  refine ⟨rfl, rfl, rfl, ?_⟩
  intro token amount o
  cases o
  · exact Or.inr rfl
  · exact Or.inl rfl
  · exact Or.inr rfl

/-- C3: any failure of the reasoning-model call (exception or timeout
during the call, or an unparseable body) makes get_ai_analysis return
the safe default, whose recommendation is HOLD, confidence 0, risk 1
and time horizon unknown; the function is total, so no error reaches
the caller. -/
theorem get_ai_analysis_safe_default :
    get_ai_analysis .failure = safeDefaultAnalysis ∧
    get_ai_analysis .unparseable = safeDefaultAnalysis ∧
    safeDefaultAnalysis.recommendation = .str "HOLD" ∧
    safeDefaultAnalysis.confidence = 0 ∧
    safeDefaultAnalysis.risk_score = 1 ∧
    safeDefaultAnalysis.time_horizon = .str "unknown" :=
  ⟨rfl, rfl, rfl, rfl, rfl, rfl⟩

/-- C10: a save_signal failure is swallowed and broadcast_signal still
publishes to the trading_signals channel, so a signal can reach
subscribers with no durable record; the broadcast is attempted whatever
the persistence outcome. -/
theorem save_failure_still_broadcasts (st : EngineState) (s : Signal) (now : ℚ)
    (ts e : String) (pub : Except String Unit) :
    (broadcast_signal (save_signal st s now (.error e)) s ts (.ok ())).saved = st.saved ∧
    (broadcast_signal (save_signal st s now (.error e)) s ts (.ok ())).published =
      st.published ++ [("trading_signals", mkBroadcastPayload s ts)] ∧
    ∀ db : Except String Unit,
      (broadcast_signal (save_signal st s now db) s ts pub).publishAttempted =
        st.publishAttempted ++ [("trading_signals", mkBroadcastPayload s ts)] := by
  refine ⟨rfl, rfl, ?_⟩
  intro db
  cases db <;> cases pub <;> rfl

/-- C4 counterexample: a HOLD decision with confidence 0.9 and risk 0.2
passes the thresholds, so generate_signal emits a SELL-direction signal
and the loop body persists it — HOLD is not filtered out. -/
theorem hold_decision_persisted_as_sell :
    (generate_signal (3/5) holdAnalysis).isSome = true ∧
    (generate_signal (3/5) holdAnalysis).map Signal.type = some .SELL ∧
    (processToken (3/5) emptyState (.ok holdAnalysis) 0 "t0" (.ok ()) (.ok ())).saved.length
      = 1 := by
  have h1 : ¬(holdAnalysis.ai_confidence < 3/5) := by
    norm_num [holdAnalysis, sampleAnalysis]
  have h2 : ¬(holdAnalysis.risk_score > 4/5) := by
    norm_num [holdAnalysis, sampleAnalysis]
  refine ⟨?_, ?_, ?_⟩
  · unfold generate_signal
    rw [if_neg h1, if_neg h2]
    rfl
  · unfold generate_signal
    rw [if_neg h1, if_neg h2]
    rfl
  · simp only [processToken]
    unfold generate_signal
    rw [if_neg h1, if_neg h2]
    rfl

/-- C4 amended: for every decision passing the thresholds a signal is
emitted whose direction is BUY for the three buy recommendations and
SELL for every other value, HOLD included; the action field carries the
recommendation unchanged. -/
theorem generate_signal_direction_mapping (minConfidence : ℚ) (a : TokenAnalysis)
    (hc : minConfidence ≤ a.ai_confidence) (hr : a.risk_score ≤ 4/5) :
    (generate_signal minConfidence a).map Signal.type =
      some (if a.ai_recommendation = .STRONG_BUY ∨ a.ai_recommendation = .BUY ∨
              a.ai_recommendation = .WEAK_BUY then .BUY else .SELL) ∧
    (generate_signal minConfidence a).map Signal.action = some a.ai_recommendation := by
  unfold generate_signal
  rw [if_neg (not_lt.mpr hc), if_neg (not_lt.mpr hr)]
  exact ⟨rfl, rfl⟩

/-- Witness for the amended C4 at the concrete HOLD analysis. -/
theorem generate_signal_direction_mapping_witness :
    (generate_signal (3/5) holdAnalysis).map Signal.action = some .HOLD :=
  (generate_signal_direction_mapping (3/5) holdAnalysis
    (by norm_num [holdAnalysis, sampleAnalysis])
    (by norm_num [holdAnalysis, sampleAnalysis])).2

/-- C5 counterexample: on total failure of both sources the returned
snapshot is the zero-valued dict, which carries no is_fallback field at
all — there is no marker for callers to test. -/
theorem fallback_snapshot_has_no_marker :
    (get_price_data "MINT1" [] 0 .netError .netError).data = fallbackPriceData ∧
    JVal.get? (get_price_data "MINT1" [] 0 .netError .netError).data "is_fallback" = none ∧
    JVal.get? (get_price_data "MINT1" [] 0 .netError .netError).data "price" =
      some (.num 0) := by
  refine ⟨?_, ?_, ?_⟩ <;> rfl

/-- C5 amended: when the primary call raises (so the secondary is never
reached) and the cache misses, get_price_data returns normally with the
zero-valued dict: price 0, no is_fallback field, cache untouched. -/
theorem get_price_data_total_failure (mint : String) (c : Cache) (now : ℚ)
    (dex : HttpOutcome) (hmiss : cacheGet c ("price_data:" ++ mint) now = none) :
    get_price_data mint c now .netError dex =
      { data := fallbackPriceData, cache := c, jupiterCalled := true, dexCalled := false } ∧
    JVal.get? fallbackPriceData "price" = some (.num 0) ∧
    JVal.get? fallbackPriceData "is_fallback" = none := by
  refine ⟨?_, rfl, rfl⟩
  simp [get_price_data, hmiss]

/-- Witness for the amended C5 on an empty cache. -/
theorem get_price_data_total_failure_witness :
    get_price_data "MINT1" [] 0 .netError .netError =
      { data := fallbackPriceData, cache := [], jupiterCalled := true,
        dexCalled := false } :=
  (get_price_data_total_failure "MINT1" [] 0 .netError rfl).1

/-- C6 counterexample: a confidence of 5 (outside [0,1]) is passed
through unchanged instead of triggering the safe default, and a
recommendation outside the enum is passed through by get_ai_analysis
and then raises in analyze_token instead of becoming a HOLD default. -/
theorem unvalidated_model_output :
    (get_ai_analysis (.parsed (mkAiBody "BUY" 5 (1/2)))).confidence = 5 ∧
    (get_ai_analysis (.parsed (mkAiBody "MOON" (7/10) (1/10)))).recommendation =
      .str "MOON" ∧
    analyze_token "MINT1" "TKN" fallbackPriceData (.ok sampleTech) (.ok sampleSocial)
        (.parsed (mkAiBody "MOON" (7/10) (1/10))) =
      .error "ValueError: not a valid SignalAction" := by
  refine ⟨?_, ?_, ?_⟩ <;> rfl

/-- C6 amended: get_ai_analysis performs no range or enum validation: a
well-formed body keeps its confidence, risk_score and recommendation
values whatever they are; a recommendation outside the known enum then
makes analyze_token raise ValueError (the token is dropped by the
per-token handler) rather than yielding the safe-default decision. -/
theorem get_ai_analysis_no_schema_validation (s : String) (q r : ℚ)
    (hbad : toSignalAction (.str s) = none) :
    (get_ai_analysis (.parsed (mkAiBody s q r))).confidence = q ∧
    (get_ai_analysis (.parsed (mkAiBody s q r))).risk_score = r ∧
    (get_ai_analysis (.parsed (mkAiBody s q r))).recommendation = .str s ∧
    analyze_token "MINT1" "TKN" fallbackPriceData (.ok sampleTech) (.ok sampleSocial)
        (.parsed (mkAiBody s q r)) = .error "ValueError: not a valid SignalAction" := by
  refine ⟨rfl, rfl, rfl, ?_⟩
  have hrec : toSignalAction (get_ai_analysis (.parsed (mkAiBody s q r))).recommendation
      = none := hbad
  unfold analyze_token
  simp only [hrec]
  rfl

/-- Witness for the amended C6 at an out-of-enum recommendation. -/
theorem get_ai_analysis_no_schema_validation_witness :
    (get_ai_analysis (.parsed (mkAiBody "MEGA_BUY" 2 (3/2)))).confidence = 2 ∧
    (get_ai_analysis (.parsed (mkAiBody "MEGA_BUY" 2 (3/2)))).risk_score = 3/2 ∧
    (get_ai_analysis (.parsed (mkAiBody "MEGA_BUY" 2 (3/2)))).recommendation =
      .str "MEGA_BUY" ∧
    analyze_token "MINT1" "TKN" fallbackPriceData (.ok sampleTech) (.ok sampleSocial)
        (.parsed (mkAiBody "MEGA_BUY" 2 (3/2))) =
      .error "ValueError: not a valid SignalAction" :=
  get_ai_analysis_no_schema_validation "MEGA_BUY" 2 (3/2) rfl

/-- C9 counterexample: a failing technical analyzer makes analyze_token
fail with the same error — no neutral default is substituted and no
complete analysis is produced. -/
theorem analyze_token_propagates_failure_cex :
    analyze_token "MINT1" "TKN" fallbackPriceData (.error "technical analyzer down")
        (.ok sampleSocial) .failure = .error "technical analyzer down" := rfl

/-- C9 amended: collaborator failures are not caught inside
analyze_token: a technical-analysis failure propagates as-is, a
sentiment failure likewise, and the per-token handler of the cycle loop
then drops the candidate, leaving the engine state untouched. -/
theorem analyze_token_propagates_failures (mint symbol : String) (pd : JVal)
    (e : String) (social : Except String SocialData) (tech : TechData)
    (ai : ModelCallOutcome) (st : EngineState) (minC now : ℚ) (ts : String)
    (db pub : Except String Unit) :
    analyze_token mint symbol pd (.error e) social ai = .error e ∧
    analyze_token mint symbol pd (.ok tech) (.error e) ai = .error e ∧
    processToken minC st (.error e) now ts db pub = st :=
  ⟨rfl, rfl, rfl⟩

/-- C7: on a cache miss with a successful Jupiter response, the first
get_price_data call makes the one primary price-source call and writes
the snapshot through to the cache with expiry 30 seconds later, before
returning it; a second call within that window makes no external call
of any kind and returns the cached snapshot unchanged. -/
theorem get_price_data_cache_idempotence (mint : String) (c : Cache) (t₁ t₂ p : ℚ)
    (dex jup₂ dex₂ : HttpOutcome)
    (hmiss : cacheGet c ("price_data:" ++ mint) t₁ = none)
    (hwin : t₂ < t₁ + 30) :
    (get_price_data mint c t₁ (.resp 200 (jupBody mint p)) dex).jupiterCalled = true ∧
    (get_price_data mint c t₁ (.resp 200 (jupBody mint p)) dex).cache =
      ("price_data:" ++ mint,
        { value := (get_price_data mint c t₁ (.resp 200 (jupBody mint p)) dex).data,
          expiresAt := t₁ + 30 }) :: c ∧
    (get_price_data mint (get_price_data mint c t₁ (.resp 200 (jupBody mint p)) dex).cache
        t₂ jup₂ dex₂).jupiterCalled = false ∧
    (get_price_data mint (get_price_data mint c t₁ (.resp 200 (jupBody mint p)) dex).cache
        t₂ jup₂ dex₂).dexCalled = false ∧
    (get_price_data mint (get_price_data mint c t₁ (.resp 200 (jupBody mint p)) dex).cache
        t₂ jup₂ dex₂).data =
      (get_price_data mint c t₁ (.resp 200 (jupBody mint p)) dex).data ∧
    (get_price_data mint (get_price_data mint c t₁ (.resp 200 (jupBody mint p)) dex).cache
        t₂ jup₂ dex₂).cache =
      (get_price_data mint c t₁ (.resp 200 (jupBody mint p)) dex).cache := by
  have hfirst : get_price_data mint c t₁ (.resp 200 (jupBody mint p)) dex =
      { data := dexEnrich p dex,
        cache := cacheSetex c ("price_data:" ++ mint) 30 (dexEnrich p dex) t₁,
        jupiterCalled := true, dexCalled := true } := by
    simp [get_price_data, hmiss, jupBody, JVal.pyGetD, pyFloat]
  have hkey : cacheGet (cacheSetex c ("price_data:" ++ mint) 30 (dexEnrich p dex) t₁)
      ("price_data:" ++ mint) t₂ = some (dexEnrich p dex) := by
    simp [cacheGet, cacheSetex, hwin]
  have hsecond : get_price_data mint
      (cacheSetex c ("price_data:" ++ mint) 30 (dexEnrich p dex) t₁) t₂ jup₂ dex₂ =
      { data := dexEnrich p dex,
        cache := cacheSetex c ("price_data:" ++ mint) 30 (dexEnrich p dex) t₁,
        jupiterCalled := false, dexCalled := false } := by
    simp [get_price_data, hkey]
  rw [hfirst]
  simp only [hsecond]
  simp [cacheSetex]

/-- Witness for C7 at a concrete mint, empty cache and a second call
ten seconds after the first. -/
theorem get_price_data_cache_idempotence_witness :
    (get_price_data "MINT1"
        (get_price_data "MINT1" [] 0 (.resp 200 (jupBody "MINT1" 5)) .netError).cache
        10 .netError .netError).jupiterCalled = false ∧
    (get_price_data "MINT1"
        (get_price_data "MINT1" [] 0 (.resp 200 (jupBody "MINT1" 5)) .netError).cache
        10 .netError .netError).data =
      (get_price_data "MINT1" [] 0 (.resp 200 (jupBody "MINT1" 5)) .netError).data := by
  have h := get_price_data_cache_idempotence "MINT1" [] 0 10 5 .netError .netError .netError
    rfl (by norm_num)
  exact ⟨h.2.2.1, h.2.2.2.2.1⟩

/-- One dict-comprehension step keeps the mint keys, appending the new
key only when it was absent. -/
theorem map_mint_dictInsert (acc : List Token) (t : Token) :
    (dictInsert acc t).map Token.mint =
      if t.mint ∈ acc.map Token.mint then acc.map Token.mint
      else acc.map Token.mint ++ [t.mint] := by
  unfold dictInsert
  by_cases hmem : t.mint ∈ acc.map Token.mint
  · rw [if_pos hmem]
    have hany : (acc.any fun u => decide (u.mint = t.mint)) = true := by
      rcases List.mem_map.mp hmem with ⟨u, hu, hmint⟩
      exact List.any_eq_true.mpr ⟨u, hu, by simp [hmint]⟩
    rw [if_pos hany, List.map_map]
    apply List.map_congr_left
    intro u _
    by_cases h : u.mint = t.mint <;> simp [h, Function.comp]
  · rw [if_neg hmem]
    have hany : ¬((acc.any fun u => decide (u.mint = t.mint)) = true) := by
      intro hc
      rcases List.any_eq_true.mp hc with ⟨u, hu, hmint⟩
      exact hmem (List.mem_map.mpr ⟨u, hu, by simpa using hmint⟩)
    rw [if_neg hany, List.map_append]
    rfl

/-- One dict-comprehension step preserves distinctness of the mint
keys. -/
theorem nodup_mint_dictInsert (acc : List Token) (t : Token)
    (h : (acc.map Token.mint).Nodup) : ((dictInsert acc t).map Token.mint).Nodup := by
  rw [map_mint_dictInsert]
  by_cases hmem : t.mint ∈ acc.map Token.mint
  · rwa [if_pos hmem]
  · rw [if_neg hmem]
    simp [List.nodup_append, h, hmem]

/-- The whole dict comprehension keeps the mint keys distinct, whatever
distinct-keyed accumulator it starts from. -/
theorem nodup_mint_foldl (l : List Token) :
    ∀ acc : List Token, (acc.map Token.mint).Nodup →
      ((l.foldl dictInsert acc).map Token.mint).Nodup := by
  induction l with
  | nil => intro acc h; simpa using h
  | cons t ts ih => intro acc h; exact ih _ (nodup_mint_dictInsert acc t h)

/-- An element surviving one dict-comprehension step under a different
mint was already in the accumulator. -/
theorem mem_of_mem_dictInsert_mint_ne (acc : List Token) (t x : Token)
    (hx : x ∈ dictInsert acc t) (hne : x.mint ≠ t.mint) : x ∈ acc := by
  unfold dictInsert at hx
  by_cases hany : (acc.any fun u => decide (u.mint = t.mint)) = true
  · rw [if_pos hany] at hx
    rcases List.mem_map.mp hx with ⟨u, hu, hux⟩
    by_cases h : u.mint = t.mint
    · rw [if_pos h] at hux
      exact absurd (hux ▸ rfl) hne
    · rw [if_neg h] at hux
      exact hux ▸ hu
  · rw [if_neg hany] at hx
    rcases List.mem_append.mp hx with h | h
    · exact h
    · exact absurd (by simp_all) hne

/-- An element of one dict-comprehension step carrying the inserted
mint is the inserted token itself. -/
theorem eq_of_mem_dictInsert_mint_eq (acc : List Token) (t x : Token)
    (hx : x ∈ dictInsert acc t) (heq : x.mint = t.mint) : x = t := by
  unfold dictInsert at hx
  by_cases hany : (acc.any fun u => decide (u.mint = t.mint)) = true
  · rw [if_pos hany] at hx
    rcases List.mem_map.mp hx with ⟨u, hu, hux⟩
    by_cases h : u.mint = t.mint
    · rw [if_pos h] at hux
      exact hux.symm
    · rw [if_neg h] at hux
      exact absurd (hux ▸ heq) h
  · rw [if_neg hany] at hx
    rcases List.mem_append.mp hx with h | h
    · exact absurd (List.any_eq_true.mpr ⟨x, h, by simp [heq]⟩) hany
    · simpa using h
/-- An element of the folded dict whose mint is never inserted by the
remaining list was already in the accumulator. -/
theorem mem_acc_of_foldl_mint_notMem (l : List Token) :
    ∀ acc x, x ∈ l.foldl dictInsert acc → x.mint ∉ l.map Token.mint → x ∈ acc := by
  induction l with
  | nil => intro acc x hx _; simpa using hx
  | cons t ts ih =>
    intro acc x hx hnm
    simp only [List.map_cons, List.mem_cons, not_or] at hnm
    exact mem_of_mem_dictInsert_mint_ne acc t x (ih _ x hx hnm.2) hnm.1

/-- Last-writer-wins: an element of the folded dict whose mint occurs
among the inserted tokens is one of the inserted tokens (not an
accumulator entry). -/
theorem mem_of_foldl_mint_mem (l : List Token) :
    ∀ acc x, x ∈ l.foldl dictInsert acc → x.mint ∈ l.map Token.mint → x ∈ l := by
  induction l with
  | nil => intro acc x _ h; simp at h
  | cons t ts ih =>
    intro acc x hx hm
    by_cases hts : x.mint ∈ ts.map Token.mint
    · exact List.mem_cons_of_mem _ (ih _ x hx hts)
    · have hxt : x.mint = t.mint := by
        rcases List.mem_cons.mp hm with h | h
        · exact h
        · exact absurd h hts
      have hacc : x ∈ dictInsert acc t := mem_acc_of_foldl_mint_notMem ts _ x hx hts
      exact (eq_of_mem_dictInsert_mint_eq acc t x hacc hxt) ▸ List.mem_cons_self t ts

/-- C8 counterexample: the dict comprehension lets the later,
trending-social entry overwrite the persisted-stats entry for the same
mint, so the retained entry is the trending one, not the
persisted-stats one. -/
theorem trending_entry_overwrites_db_entry :
    get_tokens_to_analyze (.ok [{ mint := "A", symbol := "dbA" }])
        (.ok [{ mint := "A", symbol := "trA" }]) =
      [{ mint := "A", symbol := "trA" }] ∧
    ({ mint := "A", symbol := "trA" } : Token) ≠ { mint := "A", symbol := "dbA" } :=
  ⟨rfl, by decide⟩

/-- C8 amended: the candidate list has pairwise distinct mints and
length at most 25, and any retained entry whose mint also occurs in the
trending-social list is the trending-social entry (insertion order of
the dict keeps the first position of a key but the last value written,
so the trending entry wins, not the persisted-stats one). -/
theorem get_tokens_dedup_cap_trending_wins (db trending : List Token) :
    ((get_tokens_to_analyze (.ok db) (.ok trending)).map Token.mint).Nodup ∧
    (get_tokens_to_analyze (.ok db) (.ok trending)).length ≤ 25 ∧
    ∀ x ∈ get_tokens_to_analyze (.ok db) (.ok trending),
      x.mint ∈ trending.map Token.mint → x ∈ trending := by
  refine ⟨?_, ?_, ?_⟩
  · have h := nodup_mint_foldl (db ++ trending) [] (by simp)
    simp only [get_tokens_to_analyze, dedupByMint, List.map_take] at *
    exact h.sublist (List.take_sublist _ _)
  · simp only [get_tokens_to_analyze]
    exact List.length_take_le 25 (dedupByMint (db ++ trending))
  · intro x hx hm
    have hx' : x ∈ dedupByMint (db ++ trending) :=
      List.mem_of_mem_take (by simpa [get_tokens_to_analyze] using hx)
    have hsplit : dedupByMint (db ++ trending) =
        trending.foldl dictInsert (db.foldl dictInsert []) := by
      simp [dedupByMint, List.foldl_append]
    exact mem_of_foldl_mint_mem trending _ x (hsplit ▸ hx') hm

/-- Witness for the amended C8 at concrete two-source lists sharing the
mint A. -/
theorem get_tokens_dedup_cap_trending_wins_witness :
    ({ mint := "A", symbol := "trA" } : Token) ∈
      [({ mint := "A", symbol := "trA" } : Token)] :=
  (get_tokens_dedup_cap_trending_wins
      [{ mint := "A", symbol := "dbA" }, { mint := "B", symbol := "dbB" }]
      [{ mint := "A", symbol := "trA" }]).2.2
    { mint := "A", symbol := "trA" } (by decide) (by decide)

end Boomroach
